import Mathlib

/-!
# Verification of the face-service adaptive dual-detector engine

Shallow embedding of `src/face-service/src/face_service/face_engine.py`
(and the parts of `config.py` it reads), with theorems settling the
behavioural claims about provider resolution, detector setup and
selection, the engine lifecycle, and result normalization.

Modelling conventions:
* Python `int` is `Int`; image dimensions (from `image.shape`) are `Nat`.
* Numeric payloads carried through unchanged by the code (bbox
  coordinates, embedding components, detection scores) are modelled as
  `Int` — no claim depends on float arithmetic, only on pass-through.
* External calls (`ort.get_available_providers()`, the inference call
  `detector.get(image)`, the pre-warm `app.get(...)`) are oracle
  parameters; a fallible call is an `Except` value supplied by the
  oracle.
* Python attribute access on a raw face object is fallible
  (`AttributeError` when the attribute is absent): a raw face stores
  `Option (Option Int)` per optional attribute — `none` means the
  attribute is absent (`hasattr` false), `some none` means it is
  present with value `None`.
* Python object identity for detector profiles is modelled by an
  allocation index (`sessionId`): each `FaceAnalysis(...)` construction
  in `_setup_providers` gets a fresh index, so two separately
  constructed profiles are unequal and an aliased profile is equal.
-/

namespace FaceService

/-- An entry of an ONNX providers list: either a bare provider name or a
name paired with an options dictionary, as built by
`_build_gpu_providers`. -/
inductive ProviderEntry where
  | bare (name : String)
  | withOptions (name : String) (options : List (String × String))
deriving DecidableEq

/-- The provider identifier of an entry: `p if isinstance(p, str) else p[0]`. -/
def ProviderEntry.name : ProviderEntry → String
  | .bare n => n
  | .withOptions n _ => n

/-- The fixed MIGraphX tuning options attached in `_build_gpu_providers`. -/
def migraphxOptions : List (String × String) :=
  [("device_id", "0"), ("migraphx_fp16_enable", "1"),
   ("migraphx_int8_enable", "0"), ("migraphx_exhaustive_tune", "1")]

/-- The filtering loop of `_build_gpu_providers` (face_engine.py lines
49-66): walk the configured names in order, drop any name not in
`available`, attach `migraphxOptions` to `"MIGraphXExecutionProvider"`
and keep every other available name bare. -/
def buildProviderList (available : List String) : List String → List ProviderEntry
  | [] => []
  | provider_name :: rest =>
    if provider_name ∈ available then
      (if provider_name = "MIGraphXExecutionProvider" then
        ProviderEntry.withOptions "MIGraphXExecutionProvider" migraphxOptions
      else
        ProviderEntry.bare provider_name) :: buildProviderList available rest
    else
      buildProviderList available rest

/-- `FaceEngine._build_gpu_providers` (face_engine.py lines 43-76).
`available` stands for `ort.get_available_providers()` and `configured`
for `settings.get_onnx_providers()`. After the filtering loop: collapse
to `["CPUExecutionProvider"]` when the list is empty or already exactly
`["CPUExecutionProvider"]`, then append `"CPUExecutionProvider"` when no
entry carries that identifier. Total, so it never raises. -/
def buildGpuProviders (available configured : List String) : List ProviderEntry :=
  let providers := buildProviderList available configured
  let providers :=
    if providers = [] ∨ providers = [ProviderEntry.bare "CPUExecutionProvider"] then
      [ProviderEntry.bare "CPUExecutionProvider"]
    else
      providers
  if "CPUExecutionProvider" ∉ providers.map ProviderEntry.name then
    providers ++ [ProviderEntry.bare "CPUExecutionProvider"]
  else
    providers

/-- `FaceEngine._build_cpu_providers` (face_engine.py lines 78-80). -/
def buildCpuProviders : List ProviderEntry :=
  [ProviderEntry.bare "CPUExecutionProvider"]

/-- The fields of `Settings` (config.py) read by the engine.
`onnx_providers` is the already-parsed result of
`settings.get_onnx_providers()` (a list of provider names). -/
structure Settings where
  onnx_providers : List String
  insightface_model : String
  det_size : Int
  det_size_fallback : Int
  det_size_threshold : Int
  model_cache_dir : String
deriving DecidableEq

/-- The configuration defaults of config.py. -/
def defaultSettings : Settings :=
  { onnx_providers := ["CPUExecutionProvider"]
    insightface_model := "buffalo_l"
    det_size := 1280
    det_size_fallback := 640
    det_size_threshold := 900
    model_cache_dir := "./models" }

/-- A prepared `FaceAnalysis` detector profile: the arguments it was
constructed and prepared with, plus `sessionId`, the allocation index
distinguishing separately constructed Python objects. -/
structure Profile where
  name : String
  det_size : Int
  providers : List ProviderEntry
  sessionId : Nat
deriving DecidableEq

/-- A raw detected face as returned by `detector.get(image)`.
`bbox`, `embedding` and `det_score` are always-present attributes;
`age` and `gender` model optional attributes: `none` = attribute
absent (`hasattr` is false), `some none` = present with value `None`,
`some (some v)` = present with value `v`. -/
structure RawFace where
  bbox : List Int
  embedding : List Int
  det_score : Int
  age : Option (Option Int)
  gender : Option (Option Int)
deriving DecidableEq

/-- A Python exception relevant to the embedded code. -/
inductive PyError where
  | attributeError (attr : String)
deriving DecidableEq

/-- `hasattr(face, "age")`. -/
def hasattrAge (f : RawFace) : Bool := f.age.isSome

/-- `hasattr(face, "gender")`. -/
def hasattrGender (f : RawFace) : Bool := f.gender.isSome

/-- `face.age`: attribute access, raising `AttributeError` when the
attribute is absent. -/
def getattrAge (f : RawFace) : Except PyError (Option Int) :=
  match f.age with
  | none => .error (.attributeError "age")
  | some v => .ok v

/-- `face.gender`: attribute access, raising `AttributeError` when the
attribute is absent. -/
def getattrGender (f : RawFace) : Except PyError (Option Int) :=
  match f.gender with
  | none => .error (.attributeError "gender")
  | some v => .ok v

/-- `self.app_high.get(np.zeros((64, 64, 3), ...))` wrapped in
`try ... except Exception as e: logger.warning(...)` (face_engine.py
lines 168-171 and 177-180): the inference outcome is supplied by the
oracle, its result is discarded, and any exception is caught and only
logged. -/
def prewarmProfile (inference : Except String (List RawFace)) : Except String Unit :=
  match inference with
  | .ok _ => .ok ()
  | .error _ => .ok ()

/-- `FaceEngine._prewarm_detectors` (face_engine.py lines 161-181):
pre-warm the high-res profile then the low-res profile, each under a
catch-all `except`. -/
def prewarmDetectors (warmHigh warmLow : Except String (List RawFace)) :
    Except String Unit := do
  let _ ← prewarmProfile warmHigh
  let _ ← prewarmProfile warmLow
  .ok ()

/-- `FaceEngine._prewarm_single` (face_engine.py lines 183-189):
a single pre-warm pass under `except Exception: pass`. -/
def prewarmSingle (warm : Except String (List RawFace)) : Except String Unit :=
  prewarmProfile warm

/-- The engine attributes set by `_setup_providers`, plus
`profilesConstructed`, the number of `FaceAnalysis(...)` constructions
performed (a ghost counter for the session-count invariant). -/
structure EngineState where
  det_size_threshold : Int
  use_dual_detectors : Bool
  app_high : Profile
  app_low : Profile
  app : Profile
  profilesConstructed : Nat
deriving DecidableEq

/-- `FaceEngine._setup_providers` (face_engine.py lines 82-159).
`available` stands for `ort.get_available_providers()`; `warmHigh` and
`warmLow` are the oracle outcomes of the pre-warm inference calls on
the synthetic all-zero 64x64x3 image (in single-detector mode only
`warmHigh` is consumed). Dual mode holds iff
`settings.det_size > settings.det_size_fallback`; in dual mode two
profiles are constructed (allocation indices 0 and 1), otherwise one
profile is constructed and aliased to all three attributes. -/
def setupProviders (available : List String) (s : Settings)
    (warmHigh warmLow : Except String (List RawFace)) :
    Except String EngineState :=
  let gpu_providers := buildGpuProviders available s.onnx_providers
  let cpu_providers := buildCpuProviders
  let use_dual_detectors : Bool := decide (s.det_size > s.det_size_fallback)
  if use_dual_detectors then
    let app_high : Profile :=
      { name := s.insightface_model, det_size := s.det_size,
        providers := gpu_providers, sessionId := 0 }
    let app_low : Profile :=
      { name := s.insightface_model, det_size := s.det_size_fallback,
        providers := cpu_providers, sessionId := 1 }
    match prewarmDetectors warmHigh warmLow with
    | .error e => .error e
    | .ok _ =>
      .ok { det_size_threshold := s.det_size_threshold
            use_dual_detectors := true
            app_high := app_high
            app_low := app_low
            app := app_high
            profilesConstructed := 2 }
  else
    let app : Profile :=
      { name := s.insightface_model, det_size := s.det_size,
        providers := gpu_providers, sessionId := 0 }
    match prewarmSingle warmHigh with
    | .error e => .error e
    | .ok _ =>
      .ok { det_size_threshold := s.det_size_threshold
            use_dual_detectors := false
            app_high := app
            app_low := app
            app := app
            profilesConstructed := 1 }

/-- The process-wide class attributes of `FaceEngine`
(`_instance : ClassVar`, `_initialized : ClassVar`) together with the
ghost bookkeeping needed to observe (re-)initialization: the engine
attributes of the instance (if initialized) and how many times
`_setup_providers` has run. The singleton object is identified by an
allocation index in `instanceRef`. -/
structure GlobalState where
  instanceRef : Option Nat
  initialized : Bool
  engine : Option EngineState
  setupRuns : Nat
deriving DecidableEq

/-- The class attributes before any access: `_instance = None`,
`_initialized = False`. -/
def initialGlobalState : GlobalState :=
  { instanceRef := none, initialized := false, engine := none, setupRuns := 0 }

/-- The external inputs of initialization: the available-provider set,
the settings, and the pre-warm inference oracle outcomes. -/
structure Env where
  available : List String
  settings : Settings
  warmHigh : Except String (List RawFace)
  warmLow : Except String (List RawFace)

/-- `FaceEngine.__new__` (face_engine.py lines 30-33): allocate the
singleton on first call, afterwards return the stored instance. -/
def newFaceEngine (g : GlobalState) : GlobalState × Nat :=
  match g.instanceRef with
  | some i => (g, i)
  | none => ({ g with instanceRef := some 0 }, 0)

/-- `FaceEngine.__init__` (face_engine.py lines 35-41): return
immediately when `_initialized` is set; otherwise run
`_setup_providers` (propagating its exceptions) and set
`_initialized = True`. -/
def initFaceEngine (env : Env) (g : GlobalState) : Except String GlobalState :=
  if g.initialized then .ok g
  else
    match setupProviders env.available env.settings env.warmHigh env.warmLow with
    | .error e => .error e
    | .ok st =>
      .ok { g with initialized := true, engine := some st,
                   setupRuns := g.setupRuns + 1 }

/-- `FaceEngine()`: `__new__` followed by `__init__`. -/
def constructFaceEngine (env : Env) (g : GlobalState) :
    Except String (GlobalState × Nat) :=
  let (g1, i) := newFaceEngine g
  match initFaceEngine env g1 with
  | .error e => .error e
  | .ok g2 => .ok (g2, i)

/-- `FaceEngine.get_instance` (face_engine.py lines 191-195): construct
the singleton when `_instance is None`, then return the stored
instance. -/
def get_instance (env : Env) (g : GlobalState) : Except String (GlobalState × Nat) :=
  match g.instanceRef with
  | some i => .ok (g, i)
  | none => constructFaceEngine env g

/-- A normalized detection result record, one dict of the list built at
face_engine.py lines 220-235. -/
structure DetectedFace where
  bbox : List Int
  embedding : List Int
  det_score : Int
  age : Option Int
  gender : Option String
deriving DecidableEq

/-- The `age` entry:
`int(face.age) if hasattr(face, "age") and face.age is not None else None`.
`hasattr` is evaluated first and `and` short-circuits, so the attribute
is only accessed when present. -/
def normalizeAge (f : RawFace) : Except PyError (Option Int) :=
  if hasattrAge f then
    match getattrAge f with
    | .error e => .error e
    | .ok (some v) => .ok (some v)
    | .ok none => .ok none
  else
    .ok none

/-- The `gender` entry:
`"M" if face.gender == 1 else "F" if hasattr(face, "gender") and face.gender is not None else None`.
The comparison `face.gender == 1` is evaluated first, so the attribute
is accessed before any `hasattr` guard; when it is absent this raises
`AttributeError`. -/
def normalizeGender (f : RawFace) : Except PyError (Option String) :=
  match getattrGender f with
  | .error e => .error e
  | .ok g =>
    if g = some 1 then .ok (some "M")
    else if hasattrGender f ∧ g ≠ none then .ok (some "F")
    else .ok none

/-- One element of the result list of `detect` (face_engine.py lines
220-235): `bbox`, `embedding` and `det_score` are carried through
unchanged (`float(x)` / `.tolist()` / `float(...)` are identities in
this model), then the `age` and `gender` entries are computed; the dict
literal evaluates in that order, so an `AttributeError` from the gender
entry propagates. No check of any kind is applied to the embedding. -/
def normalizeFace (f : RawFace) : Except PyError DetectedFace :=
  match normalizeAge f with
  | .error e => .error e
  | .ok age =>
    match normalizeGender f with
    | .error e => .error e
    | .ok gender =>
      .ok { bbox := f.bbox, embedding := f.embedding,
            det_score := f.det_score, age := age, gender := gender }

/-- The detector-selection step of `FaceEngine.detect` (face_engine.py
lines 201-210): with `max_dim = max(height, width)`, select `app_low`
when `use_dual_detectors and max_dim < det_size_threshold`, else
`app_high`. -/
def selectDetector (st : EngineState) (height width : Nat) : Profile :=
  let max_dim : Int := Int.ofNat (max height width)
  if st.use_dual_detectors = true ∧ max_dim < st.det_size_threshold then
    st.app_low
  else
    st.app_high

/-- An exception escaping `FaceEngine.detect`. -/
inductive DetectError where
  | inferenceError (msg : String)
  | pyError (e : PyError)
deriving DecidableEq

/-- `FaceEngine.detect` (face_engine.py lines 197-235): select the
detector from the image dimensions, run `detector.get(image)` (the
oracle `inference`, keyed by the selected profile; its exceptions
propagate), then normalize each raw face in order. -/
def detect (st : EngineState) (height width : Nat)
    (inference : Profile → Except String (List RawFace)) :
    Except DetectError (List DetectedFace) :=
  let detector := selectDetector st height width
  match inference detector with
  | .error e => .error (.inferenceError e)
  | .ok faces =>
    match faces.mapM normalizeFace with
    | .error e => .error (.pyError e)
    | .ok results => .ok results

/-- `FaceEngine.get_embedding_dimension` (face_engine.py lines 237-238). -/
def get_embedding_dimension : Int := 512

/-! ## Concrete states and faces used by witnesses -/

/-- The engine state produced by `setupProviders` on the config.py
defaults with only the CPU provider available and successful pre-warms
(dual mode, since 1280 > 640). -/
def engineStateDual : EngineState :=
  { det_size_threshold := 900, use_dual_detectors := true,
    app_high := { name := "buffalo_l", det_size := 1280,
                  providers := [ProviderEntry.bare "CPUExecutionProvider"], sessionId := 0 },
    app_low := { name := "buffalo_l", det_size := 640,
                 providers := [ProviderEntry.bare "CPUExecutionProvider"], sessionId := 1 },
    app := { name := "buffalo_l", det_size := 1280,
             providers := [ProviderEntry.bare "CPUExecutionProvider"], sessionId := 0 },
    profilesConstructed := 2 }

/-- A single-detector engine state (primary size equal to the fallback
size, so dual mode is off and all three profile attributes alias the
one constructed profile). -/
def engineStateSingle : EngineState :=
  { det_size_threshold := 900, use_dual_detectors := false,
    app_high := { name := "buffalo_l", det_size := 640,
                  providers := [ProviderEntry.bare "CPUExecutionProvider"], sessionId := 0 },
    app_low := { name := "buffalo_l", det_size := 640,
                 providers := [ProviderEntry.bare "CPUExecutionProvider"], sessionId := 0 },
    app := { name := "buffalo_l", det_size := 640,
             providers := [ProviderEntry.bare "CPUExecutionProvider"], sessionId := 0 },
    profilesConstructed := 1 }

/-- A concrete initialization environment: CPU provider available,
default settings, both pre-warm inference calls succeeding with no
detected faces. -/
def envTest : Env := ⟨["CPUExecutionProvider"], defaultSettings, .ok [], .ok []⟩

/-- The global state reached after the first `get_instance` call in
`envTest`. -/
def readyGlobalState : GlobalState :=
  { instanceRef := some 0, initialized := true, engine := some engineStateDual,
    setupRuns := 1 }

/-- A raw face with gender value 1. -/
def faceM : RawFace :=
  { bbox := [0, 0, 10, 10], embedding := List.replicate 512 0, det_score := 1,
    age := some (some 30), gender := some (some 1) }

/-- A raw face with gender value 0. -/
def faceF : RawFace :=
  { bbox := [0, 0, 10, 10], embedding := List.replicate 512 0, det_score := 1,
    age := some (some 30), gender := some (some 0) }

/-- A raw face whose gender attribute is present with value `None`. -/
def faceGenderNone : RawFace :=
  { bbox := [0, 0, 10, 10], embedding := List.replicate 512 0, det_score := 1,
    age := some (some 30), gender := some none }

/-- A raw face whose embedding has length 3 rather than 512. -/
def shortEmbeddingFace : RawFace :=
  { bbox := [0, 0, 10, 10], embedding := [1, 2, 3], det_score := 1,
    age := some (some 30), gender := some (some 1) }

/-- A raw face with no age attribute at all. -/
def faceNoAge : RawFace :=
  { bbox := [0, 0, 10, 10], embedding := List.replicate 512 0, det_score := 1,
    age := none, gender := some (some 0) }

/-- A raw face with no gender attribute at all. -/
def faceNoGender : RawFace :=
  { bbox := [0, 0, 10, 10], embedding := List.replicate 512 0, det_score := 1,
    age := some (some 30), gender := none }

/-! ## Helper lemmas shared by the claim theorems -/

/-- The catch-all `except` blocks of `_prewarm_detectors` swallow every
pre-warm outcome. -/
theorem prewarmDetectors_ok (warmHigh warmLow : Except String (List RawFace)) :
    prewarmDetectors warmHigh warmLow = .ok () := by
  unfold prewarmDetectors prewarmProfile
  cases warmHigh <;> cases warmLow <;> rfl

/-- The catch-all `except` block of `_prewarm_single` swallows every
pre-warm outcome. -/
theorem prewarmSingle_ok (warm : Except String (List RawFace)) :
    prewarmSingle warm = .ok () := by
  unfold prewarmSingle prewarmProfile
  cases warm <;> rfl

/-- `_setup_providers` always succeeds: its only fallible steps in this
model are the pre-warm calls, whose exceptions are caught. -/
theorem setupProviders_total (available : List String) (s : Settings)
    (warmHigh warmLow : Except String (List RawFace)) :
    ∃ st, setupProviders available s warmHigh warmLow = .ok st := by
  unfold setupProviders
  by_cases hd : s.det_size > s.det_size_fallback
  · simp [hd, prewarmDetectors_ok]
  · simp [hd, prewarmSingle_ok]

/-- The age entry never raises: `hasattr` guards the access, and the
emitted value is the attribute's value when present and non-null, else
`none`. -/
theorem normalizeAge_eq (f : RawFace) : normalizeAge f = .ok (f.age.bind id) := by
  unfold normalizeAge getattrAge hasattrAge
  cases hage : f.age with
  | none => rfl
  | some v => cases v <;> rfl

/-- The gender entry never raises when the gender attribute is present. -/
theorem normalizeGender_ok (f : RawFace) (gv : Option Int) (h : f.gender = some gv) :
    ∃ o, normalizeGender f = .ok o := by
  simp only [normalizeGender, getattrGender, h]
  split
  · exact ⟨some "M", rfl⟩
  · split
    · exact ⟨some "F", rfl⟩
    · exact ⟨none, rfl⟩

/-- Normalizing a one-face inference result reduces to normalizing the
face. -/
theorem mapM_singleton (f : RawFace) :
    List.mapM normalizeFace [f] =
      match normalizeFace f with
      | .error e => .error e
      | .ok d => .ok [d] := by
  cases h : normalizeFace f with
  | error e =>
    simp only [List.mapM, List.mapM.loop, h]
    rfl
  | ok d =>
    simp only [List.mapM, List.mapM.loop, h]
    rfl

/-! ## Claim theorems -/

/-- C1 (counterexample): the claim that `_build_gpu_providers` always
returns a duplicate-free list ending in `"CPUExecutionProvider"` is
false. With available providers `{CPU, ROCM}` and configured list
`[CPU, CPU, ROCM]`, the loop keeps both CPU entries (duplicate) and
returns `[CPU, CPU, ROCM]`, whose last entry is not the CPU provider —
the final step only appends CPU when absent, it does not reorder or
deduplicate. -/
theorem gpu_providers_counterexample :
    ¬ (((buildGpuProviders ["CPUExecutionProvider", "ROCMExecutionProvider"]
          ["CPUExecutionProvider", "CPUExecutionProvider", "ROCMExecutionProvider"]).map
            ProviderEntry.name).Nodup ∧
       ((buildGpuProviders ["CPUExecutionProvider", "ROCMExecutionProvider"]
          ["CPUExecutionProvider", "CPUExecutionProvider", "ROCMExecutionProvider"]).map
            ProviderEntry.name).getLast? = some "CPUExecutionProvider") := by
  decide

/-- C1 (amended): for every configured list and available set,
`_build_gpu_providers` returns a non-empty list that contains the
CPU-only provider `"CPUExecutionProvider"`, and when the CPU provider
is not among the filtered entries it is appended as the last entry;
the function is total, so it never raises. (Duplicates can occur, and
the CPU entry need not be last, when the configured list itself places
CPU before other available providers.) -/
theorem gpu_providers_nonempty_cpu (available configured : List String) :
    buildGpuProviders available configured ≠ [] ∧
    "CPUExecutionProvider" ∈
      (buildGpuProviders available configured).map ProviderEntry.name ∧
    ("CPUExecutionProvider" ∉
        (buildProviderList available configured).map ProviderEntry.name →
      (buildGpuProviders available configured).getLast? =
        some (ProviderEntry.bare "CPUExecutionProvider")) := by
  by_cases h1 : buildProviderList available configured = [] ∨
      buildProviderList available configured =
        [ProviderEntry.bare "CPUExecutionProvider"]
  · have hres : buildGpuProviders available configured =
        [ProviderEntry.bare "CPUExecutionProvider"] := by
      simp only [buildGpuProviders]
      rw [if_pos h1]
      simp [ProviderEntry.name]
    rw [hres]
    exact ⟨by simp, by simp [ProviderEntry.name], fun _ => by simp⟩
  · have hps : buildProviderList available configured ≠ [] :=
      fun he => h1 (Or.inl he)
    by_cases h2 : "CPUExecutionProvider" ∈
        (buildProviderList available configured).map ProviderEntry.name
    · have hres : buildGpuProviders available configured =
          buildProviderList available configured := by
        simp only [buildGpuProviders]
        rw [if_neg h1, if_neg (not_not_intro h2)]
      rw [hres]
      exact ⟨hps, h2, fun hc => absurd h2 hc⟩
    · have hres : buildGpuProviders available configured =
          buildProviderList available configured ++
            [ProviderEntry.bare "CPUExecutionProvider"] := by
        simp only [buildGpuProviders]
        rw [if_neg h1, if_pos h2]
      rw [hres]
      refine ⟨by simp, ?_, fun _ => List.getLast?_concat _⟩
      simp [ProviderEntry.name]

/-- C1 (amended, witness): with `{GPUProvider, CPUExecutionProvider}`
available and only `GPUProvider` requested, the result is non-empty,
contains the CPU provider, and ends in the appended CPU entry. -/
theorem gpu_providers_nonempty_cpu_witness :
    buildGpuProviders ["GPUProvider", "CPUExecutionProvider"] ["GPUProvider"] ≠ [] ∧
    "CPUExecutionProvider" ∈
      (buildGpuProviders ["GPUProvider", "CPUExecutionProvider"]
        ["GPUProvider"]).map ProviderEntry.name ∧
    (buildGpuProviders ["GPUProvider", "CPUExecutionProvider"]
        ["GPUProvider"]).getLast? =
      some (ProviderEntry.bare "CPUExecutionProvider") :=
  ⟨(gpu_providers_nonempty_cpu ["GPUProvider", "CPUExecutionProvider"] ["GPUProvider"]).1,
   (gpu_providers_nonempty_cpu ["GPUProvider", "CPUExecutionProvider"] ["GPUProvider"]).2.1,
   (gpu_providers_nonempty_cpu ["GPUProvider", "CPUExecutionProvider"] ["GPUProvider"]).2.2
     (by decide)⟩

/-- C2: the selection step of `detect`, with `max_dim = max(height, width)`:
when `use_dual_detectors` holds and `max_dim < det_size_threshold` it
selects `app_low`; in every other case — in particular on the boundary
`max_dim = det_size_threshold`, and always in non-dual mode — it
selects `app_high`. -/
theorem detect_selection (st : EngineState) (height width : Nat) :
    (st.use_dual_detectors = true ∧
        Int.ofNat (max height width) < st.det_size_threshold →
      selectDetector st height width = st.app_low) ∧
    (¬ (st.use_dual_detectors = true ∧
        Int.ofNat (max height width) < st.det_size_threshold) →
      selectDetector st height width = st.app_high) ∧
    (Int.ofNat (max height width) = st.det_size_threshold →
      selectDetector st height width = st.app_high) ∧
    (st.use_dual_detectors = false →
      selectDetector st height width = st.app_high) := by
  simp only [selectDetector]
  refine ⟨fun h => if_pos h, fun h => if_neg h, fun h => ?_, fun h => ?_⟩
  · apply if_neg
    rintro ⟨-, hlt⟩
    rw [h] at hlt
    exact lt_irrefl _ hlt
  · apply if_neg
    rintro ⟨hd, -⟩
    rw [h] at hd
    cases hd

/-- C2 (witness): in the default dual state (threshold 900), a 640x480
image selects the low profile, a 900x600 image (boundary) and any image
in a single-detector state select the high profile. -/
theorem detect_selection_witness :
    selectDetector engineStateDual 480 640 = engineStateDual.app_low ∧
    selectDetector engineStateDual 900 600 = engineStateDual.app_high ∧
    selectDetector engineStateSingle 480 640 = engineStateSingle.app_high :=
  ⟨(detect_selection engineStateDual 480 640).1 (by decide),
   (detect_selection engineStateDual 900 600).2.2.1 (by decide),
   (detect_selection engineStateSingle 480 640).2.2.2 (by decide)⟩

/-- C3: for every configured pair, `_setup_providers` sets
`use_dual_detectors` iff the primary detection size strictly exceeds
the fallback size; in dual mode it constructs two distinct profiles,
and otherwise it constructs exactly one profile, with `app_low` the
identical instance as `app_high`. -/
theorem dual_mode_setup (available : List String) (s : Settings)
    (warmHigh warmLow : Except String (List RawFace)) (st : EngineState)
    (h : setupProviders available s warmHigh warmLow = .ok st) :
    (st.use_dual_detectors = true ↔ s.det_size > s.det_size_fallback) ∧
    (s.det_size > s.det_size_fallback →
      st.app_high ≠ st.app_low ∧ st.profilesConstructed = 2) ∧
    (¬ s.det_size > s.det_size_fallback →
      st.app_high = st.app_low ∧ st.profilesConstructed = 1) := by
  unfold setupProviders at h
  simp only [prewarmDetectors_ok, prewarmSingle_ok] at h
  split at h
  · rename_i hdec
    rw [decide_eq_true_eq] at hdec
    injection h with h
    subst h
    refine ⟨by simp [hdec], fun _ => ⟨by simp [Profile.mk.injEq], rfl⟩,
      fun hc => absurd hdec hc⟩
  · rename_i hdec
    rw [decide_eq_true_eq] at hdec
    injection h with h
    subst h
    exact ⟨by simp [hdec], fun hc => absurd hc hdec, fun _ => ⟨rfl, rfl⟩⟩

/-- C3 (witness): setup on the default settings (1280 > 640) yields two
distinct profiles. -/
theorem dual_mode_setup_witness :
    engineStateDual.app_high ≠ engineStateDual.app_low ∧
    engineStateDual.profilesConstructed = 2 :=
  (dual_mode_setup ["CPUExecutionProvider"] defaultSettings (Except.ok [])
      (Except.ok []) engineStateDual rfl).2.1 (by decide)

/-- C4: result normalization maps a present gender attribute with value
1 to `"M"`, any other non-null value (including 0) to `"F"`, and a
present null gender to an omitted field. -/
theorem gender_mapping (f : RawFace) :
    (f.gender = some (some 1) → normalizeGender f = .ok (some "M")) ∧
    (∀ v : Int, f.gender = some (some v) → v ≠ 1 →
      normalizeGender f = .ok (some "F")) ∧
    (f.gender = some none → normalizeGender f = .ok none) := by
  refine ⟨fun h => ?_, fun v h hv => ?_, fun h => ?_⟩
  · simp [normalizeGender, getattrGender, h]
  · simp [normalizeGender, getattrGender, hasattrGender, h, hv]
  · simp [normalizeGender, getattrGender, hasattrGender, h]

/-- C4 (witness): gender value 1 maps to `"M"`, 0 to `"F"`, and a null
gender to an omitted field. -/
theorem gender_mapping_witness :
    normalizeGender faceM = .ok (some "M") ∧
    normalizeGender faceF = .ok (some "F") ∧
    normalizeGender faceGenderNone = .ok none :=
  ⟨(gender_mapping faceM).1 rfl,
   (gender_mapping faceF).2.1 0 rfl (by decide),
   (gender_mapping faceGenderNone).2.2 rfl⟩

/-- C5 (counterexample): the claim that an embedding of length other
than 512 is treated as an integrity fault is false: `detect` performs
no length check and returns a face whose 3-element embedding is passed
through unchanged inside a successful result. -/
theorem embedding_no_length_check :
    detect engineStateDual 1000 1000 (fun _ => .ok [shortEmbeddingFace]) =
      .ok [{ bbox := [0, 0, 10, 10], embedding := [1, 2, 3], det_score := 1,
             age := some 30, gender := some "M" }] ∧
    shortEmbeddingFace.embedding.length ≠ 512 :=
  ⟨rfl, by decide⟩

/-- C5 (amended): result normalization passes the raw embedding vector
through to the caller unchanged, regardless of its length; no
embedding-length validation is performed, so a face whose other
attributes normalize successfully is emitted successfully whatever its
embedding length. -/
theorem embedding_passthrough (f : RawFace) :
    (∀ d, normalizeFace f = .ok d → d.embedding = f.embedding) ∧
    (hasattrGender f = true →
      ∃ d, normalizeFace f = .ok d ∧ d.embedding = f.embedding) := by
  constructor
  · intro d hd
    unfold normalizeFace at hd
    rw [normalizeAge_eq] at hd
    cases hg : normalizeGender f with
    | error e => rw [hg] at hd; cases hd
    | ok o =>
      rw [hg] at hd
      injection hd with hd
      subst hd
      rfl
  · intro hattr
    rw [hasattrGender, Option.isSome_iff_exists] at hattr
    obtain ⟨gv, hgv⟩ := hattr
    obtain ⟨o, ho⟩ := normalizeGender_ok f gv hgv
    refine ⟨{ bbox := f.bbox, embedding := f.embedding, det_score := f.det_score,
              age := f.age.bind id, gender := o }, ?_, rfl⟩
    unfold normalizeFace
    rw [normalizeAge_eq, ho]

/-- C5 (amended, witness): the 3-element embedding survives
normalization unchanged. -/
theorem embedding_passthrough_witness :
    ∃ d, normalizeFace shortEmbeddingFace = .ok d ∧
      d.embedding = shortEmbeddingFace.embedding :=
  (embedding_passthrough shortEmbeddingFace).2 rfl

/-- C6: whenever the filtered provider list is empty or is exactly
`["CPUExecutionProvider"]`, `_build_gpu_providers` collapses to the
one-element CPU-only list — in particular (witness below) for available
set `{CPUExecutionProvider}` and requested list
`[GPUProvider, CPUExecutionProvider]` the result is exactly
`["CPUExecutionProvider"]`, with no GPU entry and no duplicate CPU
entry. -/
theorem gpu_providers_collapse (available configured : List String)
    (h : buildProviderList available configured = [] ∨
         buildProviderList available configured =
           [ProviderEntry.bare "CPUExecutionProvider"]) :
    buildGpuProviders available configured =
      [ProviderEntry.bare "CPUExecutionProvider"] := by
  simp only [buildGpuProviders]
  rw [if_pos h]
  simp [ProviderEntry.name]

/-- C6 (witness): the concrete case of the claim. -/
theorem gpu_providers_collapse_witness :
    buildGpuProviders ["CPUExecutionProvider"]
        ["GPUProvider", "CPUExecutionProvider"] =
      [ProviderEntry.bare "CPUExecutionProvider"] :=
  gpu_providers_collapse ["CPUExecutionProvider"]
    ["GPUProvider", "CPUExecutionProvider"] (by decide)

/-- C7: for every outcome of the pre-warm inference calls — in
particular any exception they raise — engine initialization does not
fail: the first `get_instance` call from the uninitialized state
returns the singleton with `_initialized` set (the Ready state). -/
theorem prewarm_failure_nonfatal (available : List String) (s : Settings)
    (warmHigh warmLow : Except String (List RawFace)) :
    ∃ g : GlobalState, ∃ i : Nat,
      get_instance ⟨available, s, warmHigh, warmLow⟩ initialGlobalState =
        .ok (g, i) ∧
      g.initialized = true := by
  obtain ⟨st, hst⟩ := setupProviders_total available s warmHigh warmLow
  refine ⟨{ instanceRef := some 0, initialized := true, engine := some st,
            setupRuns := 1 }, 0, ?_, rfl⟩
  simp [get_instance, initialGlobalState, constructFaceEngine, newFaceEngine,
    initFaceEngine, hst]

/-- C8: for every image in which the selected inference session detects
zero faces, `detect` returns the empty list and no error. -/
theorem no_faces_empty (st : EngineState) (height width : Nat)
    (inference : Profile → Except String (List RawFace))
    (hinf : inference (selectDetector st height width) = .ok []) :
    detect st height width inference = .ok [] := by
  simp only [detect, hinf]
  rfl

/-- C8 (witness): a 64x64 image with no detected faces yields the empty
result. -/
theorem no_faces_empty_witness :
    detect engineStateDual 64 64 (fun _ => .ok []) = .ok [] :=
  no_faces_empty engineStateDual 64 64 (fun _ => .ok []) rfl

/-- C9: after a successful first initialization, both `get_instance`
and constructing `FaceEngine()` again return the same instance and
leave the global state unchanged — in particular `_setup_providers`
does not run again and no additional profile is constructed. -/
theorem get_instance_idempotent (env : Env) (g1 : GlobalState) (i1 : Nat)
    (h : get_instance env initialGlobalState = .ok (g1, i1)) :
    get_instance env g1 = .ok (g1, i1) ∧
    constructFaceEngine env g1 = .ok (g1, i1) := by
  obtain ⟨st, hst⟩ :=
    setupProviders_total env.available env.settings env.warmHigh env.warmLow
  have hG : get_instance env initialGlobalState =
      .ok ({ instanceRef := some 0, initialized := true, engine := some st,
             setupRuns := 1 }, 0) := by
    simp [get_instance, initialGlobalState, constructFaceEngine, newFaceEngine,
      initFaceEngine, hst]
  rw [hG] at h
  injection h with h
  injection h with hg hi
  subst hg
  subst hi
  exact ⟨rfl, rfl⟩

/-- C9 (witness): in the concrete environment, the second access
returns the ready state unchanged with the same instance. -/
theorem get_instance_idempotent_witness :
    get_instance envTest readyGlobalState = .ok (readyGlobalState, 0) ∧
    constructFaceEngine envTest readyGlobalState = .ok (readyGlobalState, 0) :=
  get_instance_idempotent envTest readyGlobalState 0 rfl

/-- C10: the age attribute is probed with `hasattr` before access, so a
face without an age attribute normalizes with an omitted age field; but
`face.gender == 1` is evaluated before its `hasattr` guard, so a face
without a gender attribute makes `detect` raise `AttributeError`. -/
theorem attribute_probe_asymmetry (st : EngineState) (height width : Nat)
    (f : RawFace) :
    (f.age = none → ∀ gv : Option Int, f.gender = some gv →
      ∃ d, detect st height width (fun _ => .ok [f]) = .ok [d] ∧ d.age = none) ∧
    (f.gender = none →
      detect st height width (fun _ => .ok [f]) =
        .error (.pyError (.attributeError "gender"))) := by
  constructor
  · intro hage gv hgv
    obtain ⟨o, ho⟩ := normalizeGender_ok f gv hgv
    have hnf : normalizeFace f =
        .ok ⟨f.bbox, f.embedding, f.det_score, none, o⟩ := by
      unfold normalizeFace
      rw [normalizeAge_eq, hage, ho]
      rfl
    refine ⟨⟨f.bbox, f.embedding, f.det_score, none, o⟩, ?_, rfl⟩
    simp only [detect]
    rw [mapM_singleton, hnf]
  · intro hg
    have hng : normalizeGender f = .error (.attributeError "gender") := by
      simp [normalizeGender, getattrGender, hg]
    have hnf : normalizeFace f = .error (.attributeError "gender") := by
      unfold normalizeFace
      rw [normalizeAge_eq, hng]
    simp only [detect]
    rw [mapM_singleton, hnf]

/-- C10 (witness): a face without an age attribute yields an omitted
age field; a face without a gender attribute makes `detect` fail with
`AttributeError` on `"gender"`. -/
theorem attribute_probe_asymmetry_witness :
    (∃ d, detect engineStateDual 64 64 (fun _ => .ok [faceNoAge]) = .ok [d] ∧
      d.age = none) ∧
    detect engineStateDual 64 64 (fun _ => .ok [faceNoGender]) =
      .error (.pyError (.attributeError "gender")) :=
  ⟨(attribute_probe_asymmetry engineStateDual 64 64 faceNoAge).1 rfl (some 0) rfl,
   (attribute_probe_asymmetry engineStateDual 64 64 faceNoGender).2 rfl⟩

end FaceService
